import Mathlib

/-!
# Verification of the obsidian-lock-cards lock-enforcement engine

This file is a shallow embedding of the lock-enforcement core of the
`obsidian-lock-cards` plugin (`src/canvas/types.ts` / `CanvasLockManager`,
and the command layer in `src/main.ts`), together with theorems settling
the specification claims about it.

Modelling conventions:
* JavaScript numbers are embedded as rationals (`ℚ`); the tolerance
  `0.0001` of the source becomes the exact rational `1 / 10000`.
* A JS object field that is absent or holds a non-numeric value behaves
  identically in every relevant `typeof x === "number"` check of the
  source, so a geometry field is embedded as `Option ℚ` with `none`
  meaning "absent or not a number".
* Record lookups (`map[key]`) are embedded as functions into `Option`;
  `delete map[key]` writes `none`.
* DOM side effects that the claims do not mention (CSS classes,
  `WeakMap` element caches, the best-effort redraw call, notices,
  persistence) are outside the state model; comments note each omission.
-/

namespace LockCards

/-- The shape tag recorded in a geometry snapshot
(`ModelSnapshot.mode` in `src/canvas/types.ts`). -/
inductive Mode where
  | top
  | pos
  | rect
  | data
  | unknown
deriving DecidableEq, Repr

/-- One of the candidate geometry records of a canvas-node backing object:
the object itself (`top`) or one of its nested fields `pos`, `rect`, `data`. -/
inductive ShapeKey where
  | top
  | pos
  | rect
  | data
deriving DecidableEq, Repr

/-- A geometry record as the source probes it: the six numeric fields
`x`, `y`, `width`, `height`, `w`, `h`, each possibly absent/non-numeric. -/
structure GeomRec where
  x : Option ℚ
  y : Option ℚ
  width : Option ℚ
  height : Option ℚ
  w : Option ℚ
  h : Option ℚ
deriving DecidableEq, Repr

/-- A canvas-node backing object (an entry of the `canvas.nodes` map):
its own fields viewed as a geometry record, plus the nested candidate
records `pos`, `rect`, `data` (absent or non-object ↦ `none`). -/
structure NodeObj where
  top : GeomRec
  pos : Option GeomRec
  rect : Option GeomRec
  data : Option GeomRec
deriving DecidableEq, Repr

/-- `ModelSnapshot` of `src/canvas/types.ts`: captured geometry
(`x`, `y`, optional `w`/`h`) plus the shape it was read from. -/
structure ModelSnapshot where
  mode : Mode
  x : ℚ
  y : ℚ
  w : Option ℚ
  h : Option ℚ
deriving DecidableEq, Repr

/-- `typeof w === "number" ? w : typeof w2 === "number" ? w2 : undefined` —
the first numeric candidate of two optional fields. -/
def pick (a b : Option ℚ) : Option ℚ :=
  match a with
  | some v => some v
  | none => b

/-- `fromObj` inside `readModelSnapshot` (`src/canvas/types.ts:370-389`):
accept a candidate record iff it exposes numeric `x` and `y`; take
width from `width` else `w`, height from `height` else `h`, and record
the matched shape. -/
def fromObj : Option GeomRec → Mode → Option ModelSnapshot
  | none, _ => none
  | some b, m =>
    match b.x, b.y with
    | some x, some y => some ⟨m, x, y, pick b.width b.w, pick b.height b.h⟩
    | _, _ => none

/-- Claim-side characterization: does a candidate record expose numeric
`x` and `y`?  (`none` for an absent or non-object candidate.) -/
def optQual : Option GeomRec → Bool
  | none => false
  | some b => b.x.isSome && b.y.isSome

/-- `readModelSnapshot` (`src/canvas/types.ts:360-398`), for a node object
already fetched from the `canvas.nodes` map: try the object itself, then
its `pos`, `rect`, `data` fields, in that order. -/
def readModelSnapshot (o : NodeObj) : Option ModelSnapshot :=
  match fromObj (some o.top) Mode.top with
  | some s => some s
  | none =>
    match fromObj o.pos Mode.pos with
    | some s => some s
    | none =>
      match fromObj o.rect Mode.rect with
      | some s => some s
      | none => fromObj o.data Mode.data

/-- `applyTo` inside `restoreModelSnapshot` (`src/canvas/types.ts:410-431`):
write `snap.x` into `x` if `x` is numeric, else fail; then `snap.y` into
`y` if `y` is numeric, else fail (with `x` already written); then, when
the snapshot carries them, write `w`/`h` into `width`/`height` or,
failing that, `w`/`h`. Returns the mutated record and the success flag. -/
def applyTo (snap : ModelSnapshot) (b : GeomRec) : GeomRec × Bool :=
  match b.x with
  | none => (b, false)
  | some _ =>
    let b1 : GeomRec := { b with x := some snap.x }
    match b1.y with
    | none => (b1, false)
    | some _ =>
      let b2 : GeomRec := { b1 with y := some snap.y }
      let b3 : GeomRec :=
        match snap.w with
        | none => b2
        | some sw =>
          match b2.width with
          | some _ => { b2 with width := some sw }
          | none =>
            match b2.w with
            | some _ => { b2 with w := some sw }
            | none => b2
      let b4 : GeomRec :=
        match snap.h with
        | none => b3
        | some sh =>
          match b3.height with
          | some _ => { b3 with height := some sh }
          | none =>
            match b3.h with
            | some _ => { b3 with h := some sh }
            | none => b3
      (b4, true)

/-- Read one candidate record of a node object. -/
def getShape (o : NodeObj) : ShapeKey → Option GeomRec
  | ShapeKey.top => some o.top
  | ShapeKey.pos => o.pos
  | ShapeKey.rect => o.rect
  | ShapeKey.data => o.data

/-- Replace one candidate record of a node object. -/
def setShape (o : NodeObj) (k : ShapeKey) (b : GeomRec) : NodeObj :=
  match k with
  | ShapeKey.top => { o with top := b }
  | ShapeKey.pos => { o with pos := some b }
  | ShapeKey.rect => { o with rect := some b }
  | ShapeKey.data => { o with data := some b }

/-- Apply `applyTo` to the record named by `k`; a missing/non-object base
fails, exactly as `applyTo(undefined)` returns `false` in the source. -/
def applyToKey (snap : ModelSnapshot) (o : NodeObj) (k : ShapeKey) : NodeObj × Bool :=
  match getShape o k with
  | none => (o, false)
  | some b =>
    let r := applyTo snap b
    (setShape o k r.1, r.2)

/-- The `bases` fallback order of `restoreModelSnapshot`
(`src/canvas/types.ts:433-442`): the recorded shape first, then the
remaining shapes in the source's fixed order. -/
def baseOrder : Mode → List ShapeKey
  | Mode.top => [ShapeKey.top, ShapeKey.pos, ShapeKey.rect, ShapeKey.data]
  | Mode.pos => [ShapeKey.pos, ShapeKey.top, ShapeKey.rect, ShapeKey.data]
  | Mode.rect => [ShapeKey.rect, ShapeKey.top, ShapeKey.pos, ShapeKey.data]
  | Mode.data => [ShapeKey.data, ShapeKey.top, ShapeKey.pos, ShapeKey.rect]
  | Mode.unknown => [ShapeKey.top, ShapeKey.pos, ShapeKey.rect, ShapeKey.data]

/-- The recorded (primary) shape a restore writes first. -/
def primaryKey : Mode → ShapeKey
  | Mode.top => ShapeKey.top
  | Mode.pos => ShapeKey.pos
  | Mode.rect => ShapeKey.rect
  | Mode.data => ShapeKey.data
  | Mode.unknown => ShapeKey.top

/-- `for (const base of bases) { if (applyTo(base)) break; }`
(`src/canvas/types.ts:444-446`): try each base in order, stopping after
the first structurally successful write; failed writes keep their
partial mutations. -/
def restoreLoop (snap : ModelSnapshot) : NodeObj → List ShapeKey → NodeObj
  | o, [] => o
  | o, k :: ks =>
    let r := applyToKey snap o k
    if r.2 then r.1 else restoreLoop snap r.1 ks

/-- `restoreModelSnapshot` (`src/canvas/types.ts:400-461`) acting on the
node's backing object. The trailing best-effort redraw call
(`requestRender`/`requestFrame`/`render`/`redraw`, failures swallowed)
does not touch the geometry and is outside the model. -/
def restoreModelSnapshot (snap : ModelSnapshot) (o : NodeObj) : NodeObj :=
  restoreLoop snap o (baseOrder snap.mode)

/-- The tolerance `eps = 0.0001` of both `isSameSnapshot` copies. -/
def eps : ℚ := 1 / 10000

/-- `close(x, y)`: `Math.abs(x - y) <= eps`. -/
def close (x y : ℚ) : Bool := |x - y| ≤ eps

/-- The `w`/`h` comparison of `isSameSnapshot`: both absent is equal,
exactly one absent is unequal, both present compare within `eps`. -/
def sameDim : Option ℚ → Option ℚ → Bool
  | none, none => true
  | some aw, some bw => close aw bw
  | _, _ => false

/-- `isSameSnapshot` (`src/canvas/types.ts:487-506` and the identical
copy at `696-714`): `x`/`y` within `eps`, and `w`/`h` via `sameDim`. -/
def isSameSnapshot (a b : ModelSnapshot) : Bool :=
  close a.x b.x && close a.y b.y && sameDim a.w b.w && sameDim a.h b.h

/-- Has the node diverged from its saved snapshot?  Mirrors the guard
`!currentModel || !isSameSnapshot(currentModel, savedModel)` used by
both detector paths. -/
def diverged (savedModel : ModelSnapshot) (o : NodeObj) : Bool :=
  match readModelSnapshot o with
  | none => true
  | some current => !(isSameSnapshot current savedModel)

/-- The model branch of one `enforceLockedNodesOnce` iteration
(`src/canvas/types.ts:735-742`), for a locked node whose element
resolved and whose geometry snapshot exists: restore on divergence,
with no throttling. -/
def enforceLockedNodeModel (savedModel : ModelSnapshot) (o : NodeObj) : NodeObj :=
  match readModelSnapshot o with
  | none => restoreModelSnapshot savedModel o
  | some current =>
    if isSameSnapshot current savedModel then o
    else restoreModelSnapshot savedModel o

/-! ## Settings, throttle and the two detector paths -/

/-- `LockCardsSettings` (`src/settings/types.ts`). -/
structure LockCardsSettings where
  disableLockWhileAltDown : Bool
  enableDebugLogging : Bool
deriving DecidableEq, Repr

/-- The bypass rule shared by both detectors:
`settings.disableLockWhileAltDown && this.altDown`. -/
def shouldBypass (settings : LockCardsSettings) (altDown : Bool) : Bool :=
  settings.disableLockWhileAltDown && altDown

/-- Point update of a string-keyed total map. -/
def updMap {α : Type} (m : String → α) (k : String) (v : α) : String → α :=
  fun q => if q = k then v else m q

/-- `shouldThrottleRestore` (`src/canvas/types.ts:508-515`) for one canvas:
`lastMap` is `lastRestoreAtByCanvas[canvasPath]` with the source's `?? 0`
default folded in, `now` is `Date.now()`.  Returns the throttle verdict
and the updated timestamp map (updated only when the restore goes ahead). -/
def shouldThrottleRestore (lastMap : String → Int) (nodeId : String) (now : Int) :
    Bool × (String → Int) :=
  let last := lastMap nodeId
  if now - last < 50 then (true, lastMap)
  else (false, updMap lastMap nodeId now)

/-- The model-restore decision of the MutationObserver callback for one
affected locked node with a saved geometry snapshot
(`src/canvas/types.ts:531-570`): suspend everything while the bypass
modifier is held; otherwise restore on divergence unless the
per-(canvas,node) 50 ms throttle suppresses it.  Returns the (possibly
restored) node object and the updated throttle map. -/
def observerModelStep (settings : LockCardsSettings) (altDown : Bool)
    (lastMap : String → Int) (nodeId : String) (now : Int)
    (savedModel : ModelSnapshot) (o : NodeObj) : NodeObj × (String → Int) :=
  if shouldBypass settings altDown then (o, lastMap)
  else if diverged savedModel o then
    let t := shouldThrottleRestore lastMap nodeId now
    if t.1 then (o, t.2)
    else (restoreModelSnapshot savedModel o, t.2)
  else (o, lastMap)

/-- One enforcement-loop tick for one locked node with a saved geometry
snapshot (`src/canvas/types.ts:666-686` wrapping `enforceLockedNodesOnce`):
skip everything while the bypass modifier is held, otherwise enforce
(restore on divergence, unthrottled). -/
def tickModelStep (settings : LockCardsSettings) (altDown : Bool)
    (savedModel : ModelSnapshot) (o : NodeObj) : NodeObj :=
  if shouldBypass settings altDown then o
  else enforceLockedNodeModel savedModel o

/-! ## Geometry mutations (the host moving/resizing a node)

A simulated geometry mutation models the host writing a new numeric
value into an existing numeric geometry field of the node's backing
object, as its drag/resize/layout code does.  It does not add fields,
remove fields, or change a field's type. -/

/-- A geometry field name of a candidate record. -/
inductive GeomField where
  | x
  | y
  | width
  | height
  | w
  | h
deriving DecidableEq, Repr

/-- Overwrite a field's numeric value, keeping absent fields absent. -/
def setNumField (b : GeomRec) (f : GeomField) (v : ℚ) : GeomRec :=
  match f with
  | GeomField.x => match b.x with | some _ => { b with x := some v } | none => b
  | GeomField.y => match b.y with | some _ => { b with y := some v } | none => b
  | GeomField.width => match b.width with | some _ => { b with width := some v } | none => b
  | GeomField.height => match b.height with | some _ => { b with height := some v } | none => b
  | GeomField.w => match b.w with | some _ => { b with w := some v } | none => b
  | GeomField.h => match b.h with | some _ => { b with h := some v } | none => b

/-- A single geometry mutation: which candidate record, which field,
which new numeric value. -/
structure GeomMut where
  shape : ShapeKey
  field : GeomField
  value : ℚ
deriving DecidableEq, Repr

/-- Apply one geometry mutation to a node's backing object. -/
def applyMut (o : NodeObj) (m : GeomMut) : NodeObj :=
  match m.shape with
  | ShapeKey.top => { o with top := setNumField o.top m.field m.value }
  | ShapeKey.pos =>
    match o.pos with
    | none => o
    | some b => { o with pos := some (setNumField b m.field m.value) }
  | ShapeKey.rect =>
    match o.rect with
    | none => o
    | some b => { o with rect := some (setNumField b m.field m.value) }
  | ShapeKey.data =>
    match o.data with
    | none => o
    | some b => { o with data := some (setNumField b m.field m.value) }

/-- Apply a sequence of geometry mutations. -/
def applyMuts (ms : List GeomMut) (o : NodeObj) : NodeObj :=
  ms.foldl applyMut o

/-- Two geometry records expose the same fields (numerically present in
one iff numerically present in the other).  Geometry mutations change
values, never this presence pattern. -/
def recPresEq (a b : GeomRec) : Prop :=
  a.x.isSome = b.x.isSome ∧ a.y.isSome = b.y.isSome ∧
  a.width.isSome = b.width.isSome ∧ a.height.isSome = b.height.isSome ∧
  a.w.isSome = b.w.isSome ∧ a.h.isSome = b.h.isSome

/-- Presence equality for an optional candidate record. -/
def optPresEq : Option GeomRec → Option GeomRec → Prop
  | none, none => True
  | some a, some b => recPresEq a b
  | _, _ => False

/-- Presence equality of whole node backing objects. -/
def presEq (o o' : NodeObj) : Prop :=
  recPresEq o.top o'.top ∧ optPresEq o.pos o'.pos ∧
  optPresEq o.rect o'.rect ∧ optPresEq o.data o'.data

/-! ## DOM elements and the move-element walk -/

/-- JS `String.prototype.startsWith` on character lists. -/
def startsWithChars : List Char → List Char → Bool
  | _, [] => true
  | [], _ :: _ => false
  | c :: cs, p :: ps => c == p && startsWithChars cs ps

/-- JS `String.prototype.includes` on character lists. -/
def includesChars : List Char → List Char → Bool
  | [], pat => pat.isEmpty
  | c :: cs, pat => startsWithChars (c :: cs) pat || includesChars cs pat

/-- JS `s.includes(pat)`. -/
def strIncludes (s pat : String) : Bool :=
  includesChars s.data pat.data

/-- A DOM element as the move-element walk sees it: its inline `style`
attribute (`none` when `getAttribute("style")` returns `null`). -/
structure DomElem where
  style : Option String
deriving DecidableEq, Repr

/-- A node element plus its `parentElement` chain, nearest parent first. -/
structure NodeElem where
  el : DomElem
  ancestors : List DomElem
deriving DecidableEq, Repr

/-- `hasInlinePositionProps` (`src/canvas/types.ts:324-334`): the inline
style string exists, is non-empty, and mentions one of
`transform`, `left`, `top`, `width`, `height`. -/
def hasInlinePositionProps (e : DomElem) : Bool :=
  match e.style with
  | none => false
  | some s =>
    if s.isEmpty then false
    else
      strIncludes s "transform" || strIncludes s "left" || strIncludes s "top" ||
        strIncludes s "width" || strIncludes s "height"

/-- The cursor walk of `findMoveElement`: at most `n` loop iterations over
the ancestor-or-self chain, returning the first qualifying element. -/
def findMoveAux : Nat → List DomElem → Option DomElem
  | 0, _ => none
  | _ + 1, [] => none
  | n + 1, c :: rest =>
    if hasInlinePositionProps c then some c else findMoveAux n rest

/-- `findMoveElement` (`src/canvas/types.ts:323-345`): walk the chain
`nodeEl, parent, grandparent` (the loop runs `i = 0, 1, 2` starting
at the node element) and return the first element with inline position
props, falling back to the node element. -/
def findMoveElement (ne : NodeElem) : DomElem :=
  (findMoveAux 3 (ne.el :: ne.ancestors)).getD ne.el

/-! ## Per-canvas manager state and the command layer -/

/-- A string-keyed JS record embedded as a partial map. -/
def StrMap (α : Type) : Type := String → Option α

/-- `map[key] = value` / `delete map[key]` (with `v = none`). -/
def upd {α : Type} (m : StrMap α) (k : String) (v : Option α) : StrMap α :=
  fun q => if q = k then v else m q

/-- `(outer[p] ??= {})[id] = v` — the nested-record write used by the
snapshot helpers. -/
def setInner {α : Type} (m : StrMap (StrMap α)) (p id : String) (v : α) :
    StrMap (StrMap α) :=
  let inner : StrMap α := (m p).getD (fun _ => none)
  upd m p (some (upd inner id (some v)))

/-- `const map = outer[p]; if (!map) return; delete map[id];` — the
nested-record delete used by the forget helpers. -/
def delInner {α : Type} (m : StrMap (StrMap α)) (p id : String) :
    StrMap (StrMap α) :=
  match m p with
  | none => m
  | some inner => upd m p (some (upd inner id none))

/-- `outer[p]?.[id]` — the nested-record read. -/
def getInner {α : Type} (m : StrMap (StrMap α)) (p id : String) : Option α :=
  (m p).bind fun inner => inner id

/-- The state of `CanvasLockManager` relevant to locking: the shared
locked-id record and the three per-canvas snapshot records
(`src/canvas/types.ts:43-45` and the constructor's `lockedByCanvas`). -/
structure ManagerState where
  lockedByCanvas : StrMap (List String)
  lockedStyleByCanvas : StrMap (StrMap String)
  lockedMoveStyleByCanvas : StrMap (StrMap String)
  lockedModelByCanvas : StrMap (StrMap ModelSnapshot)

/-- The resolution environment of one canvas during a command: per node
id, the resolved DOM element with its ancestor chain
(`resolveNodeElById`; `none` when unresolvable) and the backing object
from the `canvas.nodes` map (`none` when missing or not an object). -/
structure NodeView where
  elOf : String → Option NodeElem
  objOf : String → Option NodeObj

/-- `isLocked` (`src/canvas/types.ts:163-165`):
`(lockedByCanvas[canvasPath] ?? []).includes(nodeId)`. -/
def isLocked (st : ManagerState) (canvasPath nodeId : String) : Bool :=
  ((st.lockedByCanvas canvasPath).getD []).contains nodeId

/-- JS `Set.prototype.add` on an insertion-ordered duplicate-free list. -/
def setAdd (l : List String) (id : String) : List String :=
  if l.contains id then l else l ++ [id]

/-- `new Set(arr)`: deduplicate keeping first occurrences. -/
def jsSetOfList (l : List String) : List String :=
  l.foldl setAdd []

/-- `setLocked` (`src/canvas/types.ts:167-172`): rebuild the canvas's
locked-id list through a `Set`, adding or deleting `nodeId`. -/
def setLocked (st : ManagerState) (canvasPath nodeId : String) (locked : Bool) :
    ManagerState :=
  let current := jsSetOfList ((st.lockedByCanvas canvasPath).getD [])
  let next := if locked then setAdd current nodeId else current.filter (fun a => a ≠ nodeId)
  { st with lockedByCanvas := upd st.lockedByCanvas canvasPath (some next) }

/-- `snapshotOnLock` (`src/canvas/types.ts:174-181`): resolve the node's
element (bail out silently when unresolvable), then capture the element
style, the move-element style (via `findMoveElement`), and — when the
backing object yields one — the geometry snapshot.  The `nodeIdByEl`
and `moveElByNodeEl` WeakMap caches have no observable effect on the
claims and are outside the state model. -/
def snapshotOnLock (st : ManagerState) (canvasPath : String) (env : NodeView)
    (nodeId : String) : ManagerState :=
  match env.elOf nodeId with
  | none => st
  | some ne =>
    let st1 := { st with
      lockedStyleByCanvas :=
        setInner st.lockedStyleByCanvas canvasPath nodeId (ne.el.style.getD "") }
    let moveEl := findMoveElement ne
    let st2 := { st1 with
      lockedMoveStyleByCanvas :=
        setInner st1.lockedMoveStyleByCanvas canvasPath nodeId (moveEl.style.getD "") }
    match (env.objOf nodeId).bind readModelSnapshot with
    | none => st2
    | some snap =>
      { st2 with
        lockedModelByCanvas := setInner st2.lockedModelByCanvas canvasPath nodeId snap }

/-- `forgetOnUnlock` (`src/canvas/types.ts:183-187`): delete all three
snapshot kinds for the node. -/
def forgetOnUnlock (st : ManagerState) (canvasPath nodeId : String) : ManagerState :=
  { st with
    lockedStyleByCanvas := delInner st.lockedStyleByCanvas canvasPath nodeId,
    lockedMoveStyleByCanvas := delInner st.lockedMoveStyleByCanvas canvasPath nodeId,
    lockedModelByCanvas := delInner st.lockedModelByCanvas canvasPath nodeId }

/-- `unlockAllInCanvas` (`src/canvas/types.ts:130-141`): forget every
locked node's snapshots, empty the canvas's locked-id list, and return
how many ids were unlocked.  (`applyLockedClasses` only rewrites DOM
CSS classes and is outside the state model.) -/
def unlockAllInCanvas (st : ManagerState) (canvasPath : String) : ManagerState × Nat :=
  let lockedIds := (st.lockedByCanvas canvasPath).getD []
  if lockedIds.length = 0 then (st, 0)
  else
    let st1 := lockedIds.foldl (fun s id => forgetOnUnlock s canvasPath id) st
    let st2 := { st1 with lockedByCanvas := upd st1.lockedByCanvas canvasPath (some []) }
    (st2, lockedIds.length)

/-- The effect on manager state of the `toggle-lock-selected-cards`
command (`src/main.ts:43-51`), given a non-empty selection: if any
selected node is unlocked, lock and snapshot the whole selection,
otherwise unlock it and forget its snapshots.  (`ensureGuardAttached`,
`applyLockedClasses`, persistence and the notice do not touch this
state.) -/
def toggleLockCommand (st : ManagerState) (canvasPath : String) (env : NodeView)
    (selectedIds : List String) : ManagerState :=
  let anyUnlocked := selectedIds.any fun id => !(isLocked st canvasPath id)
  let newLockedState := anyUnlocked
  let st1 := selectedIds.foldl (fun s id => setLocked s canvasPath id newLockedState) st
  selectedIds.foldl
    (fun s id =>
      if newLockedState then snapshotOnLock s canvasPath env id
      else forgetOnUnlock s canvasPath id)
    st1

/-! ## Concrete inputs used by witnesses and counterexamples -/

/-- A node object whose own fields expose `x`, `y`, `width` and `h`
(so the snapshot reads `mode = top`, taking width from `width` and
height from `h`). -/
def exObjC1 : NodeObj :=
  { top := { x := some 10, y := some 20, width := some 100, height := none,
             w := none, h := some 50 }
    pos := none, rect := none, data := none }

/-- A drag followed by a resize, as concrete geometry mutations. -/
def exMutsC1 : List GeomMut :=
  [⟨ShapeKey.top, GeomField.x, 999⟩, ⟨ShapeKey.top, GeomField.y, -3⟩,
   ⟨ShapeKey.top, GeomField.h, 7⟩]

/-- A backing object for toggle-command witnesses. -/
def exObjC2 : NodeObj :=
  { top := { x := some 1, y := some 2, width := some 3, height := some 4,
             w := none, h := none }
    pos := none, rect := none, data := none }

/-- A resolution environment where every node resolves to a styled
element and a readable backing object. -/
def exEnvC2 : NodeView :=
  { elOf := fun _ => some ⟨⟨some "left: 10px; top: 20px;"⟩, []⟩
    objOf := fun _ => some exObjC2 }

/-- Manager state for the toggle witness: on canvas `c`, node `a` is
locked and node `b` is not. -/
def exStC2 : ManagerState :=
  { lockedByCanvas := fun p => if p = "c" then some ["a"] else none
    lockedStyleByCanvas := fun _ => none
    lockedMoveStyleByCanvas := fun _ => none
    lockedModelByCanvas := fun _ => none }

/-- Manager state for the unlock-all witness: canvas `c` has three
locked ids with captured snapshots. -/
def exStC3 : ManagerState :=
  { lockedByCanvas := fun p => if p = "c" then some ["a", "b", "d"] else none
    lockedStyleByCanvas := fun p =>
      if p = "c" then some (fun _ => some "left: 1px") else none
    lockedMoveStyleByCanvas := fun p =>
      if p = "c" then some (fun _ => some "top: 2px") else none
    lockedModelByCanvas := fun p =>
      if p = "c" then some (fun _ => some ⟨Mode.top, 0, 0, none, none⟩) else none }

/-- An element chain in which only the third ancestor (the
great-grandparent) carries inline position props. -/
def exNodeElemC5 : NodeElem :=
  { el := ⟨none⟩
    ancestors := [⟨none⟩, ⟨some "color: red"⟩, ⟨some "transform: translate(10px, 0px)"⟩] }

/-- A node object whose own record qualifies for the `top` shape. -/
def exObjC6 : NodeObj :=
  { top := { x := some 5, y := some 6, width := none, height := some 8,
             w := some 7, h := none }
    pos := some { x := some 1, y := some 1, width := none, height := none,
                  w := none, h := none }
    rect := none, data := none }

/-- A snapshot recorded from the nested `pos` shape. -/
def exSnapC7 : ModelSnapshot := ⟨Mode.pos, 11, 12, some 13, none⟩

/-- A node object whose `pos` record accepts a structural write. -/
def exObjC7 : NodeObj :=
  { top := { x := none, y := some 0, width := none, height := none,
             w := none, h := none }
    pos := some { x := some 99, y := some 98, width := some 97, height := none,
                  w := none, h := none }
    rect := none, data := none }

/-- A saved snapshot for the throttle scenarios. -/
def exSnapC8 : ModelSnapshot := ⟨Mode.top, 1, 2, none, none⟩

/-- A diverged backing object (its `x` drifted from 1 to 5). -/
def exObjC8 : NodeObj :=
  { top := { x := some 5, y := some 2, width := none, height := none,
             w := none, h := none }
    pos := none, rect := none, data := none }

/-- Throttle timestamps: the node's last restore happened at time 0. -/
def exLastC8 : String → Int := fun _ => 0

/-- Settings for the throttle scenario (bypass option on, modifier up). -/
def exSettingsC8 : LockCardsSettings :=
  { disableLockWhileAltDown := true, enableDebugLogging := false }

/-- Settings with the bypass option enabled. -/
def exSettingsC9 : LockCardsSettings :=
  { disableLockWhileAltDown := true, enableDebugLogging := false }

/-- A saved snapshot for the bypass scenario. -/
def exSnapC9 : ModelSnapshot := ⟨Mode.top, 3, 4, some 5, none⟩

/-- A diverged backing object for the bypass scenario. -/
def exObjC9 : NodeObj :=
  { top := { x := some 30, y := some 4, width := some 5, height := none,
             w := none, h := none }
    pos := none, rect := none, data := none }

/-- Throttle timestamps for the bypass scenario: long idle. -/
def exLastC9 : String → Int := fun _ => 0

/-- A snapshot recorded from the `rect` shape. -/
def exSnapC10 : ModelSnapshot := ⟨Mode.rect, 21, 22, none, none⟩

/-- A backing object whose `rect` record has numeric `x` but no numeric
`y`, while the object itself would accept the write. -/
def exObjC10 : NodeObj :=
  { top := { x := some 0, y := some 0, width := none, height := none,
             w := none, h := none }
    pos := none
    rect := some { x := some 77, y := none, width := some 70, height := none,
                   w := none, h := none }
    data := none }

/-! ## Helper lemmas -/

theorem pick_isSome (a b : Option ℚ) : (pick a b).isSome = (a.isSome || b.isSome) := by
  cases a <;> simp [pick]

theorem fromObj_some_of (b : GeomRec) (m : Mode)
    (h : (b.x.isSome && b.y.isSome) = true) :
    fromObj (some b) m =
      some ⟨m, b.x.getD 0, b.y.getD 0, pick b.width b.w, pick b.height b.h⟩ := by
  obtain ⟨hx, hy⟩ := (Bool.and_eq_true _ _).mp h
  obtain ⟨xv, hxv⟩ := Option.isSome_iff_exists.mp hx
  obtain ⟨yv, hyv⟩ := Option.isSome_iff_exists.mp hy
  simp [fromObj, hxv, hyv]

theorem fromObj_none_of (b : GeomRec) (m : Mode)
    (h : (b.x.isSome && b.y.isSome) = false) :
    fromObj (some b) m = none := by
  cases hx : b.x <;> cases hy : b.y <;> simp_all [fromObj]

theorem fromObj_none_of_optQual (r : Option GeomRec) (m : Mode)
    (h : optQual r = false) : fromObj r m = none := by
  cases r with
  | none => rfl
  | some b => exact fromObj_none_of b m (by simpa [optQual] using h)

theorem getShape_setShape_self (o : NodeObj) (k : ShapeKey) (b : GeomRec) :
    getShape (setShape o k b) k = some b := by
  cases k <;> rfl

theorem getShape_setShape_ne (o : NodeObj) (k k' : ShapeKey) (b : GeomRec)
    (h : k' ≠ k) : getShape (setShape o k b) k' = getShape o k' := by
  cases k <;> cases k' <;> first
    | rfl
    | exact absurd rfl h

theorem getShape_applyToKey_ne (snap : ModelSnapshot) (o : NodeObj) (k k' : ShapeKey)
    (h : k' ≠ k) : getShape (applyToKey snap o k).1 k' = getShape o k' := by
  unfold applyToKey
  cases hb : getShape o k with
  | none => rfl
  | some b => exact getShape_setShape_ne o k k' _ h

theorem getShape_restoreLoop_not_mem (snap : ModelSnapshot) (ks : List ShapeKey)
    (k : ShapeKey) (hk : k ∉ ks) :
    ∀ o, getShape (restoreLoop snap o ks) k = getShape o k := by
  induction ks with
  | nil => intro o; rfl
  | cons k' ks ih =>
    intro o
    have hne : k ≠ k' := fun h => hk (h ▸ List.mem_cons_self k' ks)
    have hrest : k ∉ ks := fun h => hk (List.mem_cons_of_mem k' h)
    unfold restoreLoop
    by_cases hs : (applyToKey snap o k').2
    · simp [hs, getShape_applyToKey_ne snap o k' k hne]
    · simp [hs, ih hrest, getShape_applyToKey_ne snap o k' k hne]

theorem primaryKey_not_mem_tail (m : Mode) :
    primaryKey m ∉ (baseOrder m).tail := by
  cases m <;> decide

/-- The fully successful structural write, as one equation: `x` and `y`
are overwritten, and each snapshot dimension goes to `width`/`height`
when that field is numeric, else to `w`/`h` when that one is. -/
theorem applyTo_complete (snap : ModelSnapshot) (a c : ℚ)
    (wd ht w2 h2 : Option ℚ) :
    applyTo snap ⟨some a, some c, wd, ht, w2, h2⟩ =
      (⟨some snap.x, some snap.y,
        (match snap.w, wd with
         | some sw, some _ => some sw
         | _, _ => wd),
        (match snap.h, ht with
         | some sh, some _ => some sh
         | _, _ => ht),
        (match snap.w, wd, w2 with
         | some sw, none, some _ => some sw
         | _, _, _ => w2),
        (match snap.h, ht, h2 with
         | some sh, none, some _ => some sh
         | _, _, _ => h2)⟩, true) := by
  cases hw : snap.w <;> cases hh : snap.h <;>
    cases wd <;> cases ht <;> cases w2 <;> cases h2 <;>
      simp [applyTo, hw, hh]

/-- A structurally failed write with numeric `x` but missing `y`:
`x` is overwritten, everything else untouched, failure reported. -/
theorem applyTo_fail_y (snap : ModelSnapshot) (a : ℚ) (wd ht w2 h2 : Option ℚ) :
    applyTo snap ⟨some a, none, wd, ht, w2, h2⟩ =
      (⟨some snap.x, none, wd, ht, w2, h2⟩, false) := rfl

/-- A structurally failed write with missing `x`: nothing is touched. -/
theorem applyTo_fail_x (snap : ModelSnapshot) (yv : Option ℚ) (wd ht w2 h2 : Option ℚ) :
    applyTo snap ⟨none, yv, wd, ht, w2, h2⟩ =
      (⟨none, yv, wd, ht, w2, h2⟩, false) := rfl

theorem restore_of_primary_success (snap : ModelSnapshot) (o : NodeObj) (b : GeomRec)
    (hb : getShape o (primaryKey snap.mode) = some b)
    (hsucc : (applyTo snap b).2 = true) :
    restoreModelSnapshot snap o = setShape o (primaryKey snap.mode) (applyTo snap b).1 := by
  cases hm : snap.mode <;>
    rw [hm] at hb <;>
    simp only [primaryKey] at hb ⊢ <;>
    simp [restoreModelSnapshot, hm, baseOrder, restoreLoop, applyToKey, hb, hsucc]

/-! ## Claim C4 -/

/-- C4: `isSameSnapshot a b` is true iff `|a.x - b.x| ≤ 1e-4`,
`|a.y - b.y| ≤ 1e-4`, and for width and height separately: both
undefined is equal, exactly one undefined is unequal, both defined are
compared within the same absolute tolerance `1e-4`. -/
theorem isSameSnapshot_iff (a b : ModelSnapshot) :
    isSameSnapshot a b = true ↔
      (|a.x - b.x| ≤ 1 / 10000 ∧ |a.y - b.y| ≤ 1 / 10000 ∧
       (match a.w, b.w with
        | none, none => True
        | some aw, some bw => |aw - bw| ≤ 1 / 10000
        | _, _ => False) ∧
       (match a.h, b.h with
        | none, none => True
        | some ah, some bh => |ah - bh| ≤ 1 / 10000
        | _, _ => False)) := by
  rcases a with ⟨am, ax, ay, aw, ah⟩
  rcases b with ⟨bm, bx, byv, bw, bh⟩
  cases aw <;> cases bw <;> cases ah <;> cases bh <;>
    simp [isSameSnapshot, close, sameDim, eps, Bool.and_eq_true, decide_eq_true_iff,
      and_assoc]

/-! ## Claim C5 -/

theorem findMoveAux_eq_find (n : Nat) :
    ∀ l : List DomElem, findMoveAux n l = (l.take n).find? hasInlinePositionProps := by
  induction n with
  | zero => intro l; simp [findMoveAux]
  | succ n ih =>
    intro l
    cases l with
    | nil => simp [findMoveAux]
    | cons c rest =>
      by_cases h : hasInlinePositionProps c
      · simp [findMoveAux, h, List.find?]
      · simp [findMoveAux, h, List.find?, ih]

/-- C5 (amended): `findMoveElement` examines the node element and then at
most two ancestors, returning the first examined element whose inline
style contains one of the position properties, and falling back to the
node element when no examined element qualifies. -/
theorem findMoveElement_spec (ne : NodeElem) :
    findMoveElement ne =
      ((ne.el :: ne.ancestors.take 2).find? hasInlinePositionProps).getD ne.el := by
  unfold findMoveElement
  rw [findMoveAux_eq_find]
  rfl

/-- C5 counterexample: in a chain whose third ancestor is the only
element with inline position props, the claim as stated returns that
ancestor (it is within "at most 3 ancestors upward"), but the function
returns the node element, which has no position props at all. -/
theorem findMoveElement_counterexample :
    exNodeElemC5.ancestors[2]? = some ⟨some "transform: translate(10px, 0px)"⟩ ∧
    hasInlinePositionProps ⟨some "transform: translate(10px, 0px)"⟩ = true ∧
    findMoveElement exNodeElemC5 = exNodeElemC5.el ∧
    hasInlinePositionProps exNodeElemC5.el = false := by
  refine ⟨rfl, by decide, by decide, by decide⟩

/-! ## Claim C6 -/

/-- C6: `readModelSnapshot` tries, in fixed priority order, the node's
backing object itself, then its nested `pos`, `rect`, `data` fields,
and returns a snapshot built from the first candidate exposing numeric
`x` and `y` (width from `width` else `w`, height from `height` else
`h`), recording which shape matched; it returns `none` when no
candidate qualifies. -/
theorem readModelSnapshot_priority (o : NodeObj) :
    ((o.top.x.isSome && o.top.y.isSome) = true →
      readModelSnapshot o =
        some ⟨Mode.top, o.top.x.getD 0, o.top.y.getD 0,
              pick o.top.width o.top.w, pick o.top.height o.top.h⟩) ∧
    ((o.top.x.isSome && o.top.y.isSome) = false →
      ∀ p, o.pos = some p → (p.x.isSome && p.y.isSome) = true →
        readModelSnapshot o =
          some ⟨Mode.pos, p.x.getD 0, p.y.getD 0,
                pick p.width p.w, pick p.height p.h⟩) ∧
    ((o.top.x.isSome && o.top.y.isSome) = false → optQual o.pos = false →
      ∀ r, o.rect = some r → (r.x.isSome && r.y.isSome) = true →
        readModelSnapshot o =
          some ⟨Mode.rect, r.x.getD 0, r.y.getD 0,
                pick r.width r.w, pick r.height r.h⟩) ∧
    ((o.top.x.isSome && o.top.y.isSome) = false → optQual o.pos = false →
      optQual o.rect = false →
      ∀ d, o.data = some d → (d.x.isSome && d.y.isSome) = true →
        readModelSnapshot o =
          some ⟨Mode.data, d.x.getD 0, d.y.getD 0,
                pick d.width d.w, pick d.height d.h⟩) ∧
    ((o.top.x.isSome && o.top.y.isSome) = false → optQual o.pos = false →
      optQual o.rect = false → optQual o.data = false →
      readModelSnapshot o = none) := by
  refine ⟨?_, ?_, ?_, ?_, ?_⟩
  · intro h
    simp [readModelSnapshot, fromObj_some_of o.top Mode.top h]
  · intro h p hp hq
    rw [readModelSnapshot, fromObj_none_of o.top Mode.top h, hp,
      fromObj_some_of p Mode.pos hq]
  · intro h hpos r hr hq
    rw [readModelSnapshot, fromObj_none_of o.top Mode.top h,
      fromObj_none_of_optQual o.pos Mode.pos hpos, hr,
      fromObj_some_of r Mode.rect hq]
  · intro h hpos hrect d hd hq
    rw [readModelSnapshot, fromObj_none_of o.top Mode.top h,
      fromObj_none_of_optQual o.pos Mode.pos hpos,
      fromObj_none_of_optQual o.rect Mode.rect hrect, hd,
      fromObj_some_of d Mode.data hq]
  · intro h hpos hrect hdata
    rw [readModelSnapshot, fromObj_none_of o.top Mode.top h,
      fromObj_none_of_optQual o.pos Mode.pos hpos,
      fromObj_none_of_optQual o.rect Mode.rect hrect,
      fromObj_none_of_optQual o.data Mode.data hdata]

/-- Witness for C6 at a concrete object whose own record qualifies:
the snapshot records shape `top`, takes width from `w` (since `width`
is missing) and height from `height`. -/
theorem readModelSnapshot_priority_witness :
    readModelSnapshot exObjC6 = some ⟨Mode.top, 5, 6, some 7, some 8⟩ := by
  have h := (readModelSnapshot_priority exObjC6).1 (by decide)
  exact h.trans (by decide)

/-! ## Claim C7 -/

/-- C7: `restoreModelSnapshot` writes `x`, `y`, and — when present in the
snapshot — width/height (into `width`/`height`, or failing that `w`/`h`)
back into the shape recorded in the snapshot first; any other shape is
written only if the primary write fails structurally (`x` or `y` absent
or non-numeric there), and after the first structurally successful
write no further shape is written. -/
theorem restoreModelSnapshot_primary_first (snap : ModelSnapshot) (o : NodeObj)
    (b : GeomRec) (hb : getShape o (primaryKey snap.mode) = some b)
    (hx : b.x.isSome = true) (hy : b.y.isSome = true) :
    restoreModelSnapshot snap o = setShape o (primaryKey snap.mode) (applyTo snap b).1 ∧
    (∀ k, k ≠ primaryKey snap.mode →
      getShape (restoreModelSnapshot snap o) k = getShape o k) ∧
    (applyTo snap b).1.x = some snap.x ∧
    (applyTo snap b).1.y = some snap.y ∧
    (∀ sw, snap.w = some sw → b.width.isSome = true →
      (applyTo snap b).1.width = some sw) ∧
    (∀ sw, snap.w = some sw → b.width = none → b.w.isSome = true →
      (applyTo snap b).1.w = some sw) ∧
    (∀ sh, snap.h = some sh → b.height.isSome = true →
      (applyTo snap b).1.height = some sh) ∧
    (∀ sh, snap.h = some sh → b.height = none → b.h.isSome = true →
      (applyTo snap b).1.h = some sh) ∧
    (∀ o2 k ks, (applyToKey snap o2 k).2 = true →
      restoreLoop snap o2 (k :: ks) = (applyToKey snap o2 k).1) := by
  obtain ⟨xv, hxv⟩ := Option.isSome_iff_exists.mp hx
  obtain ⟨yv, hyv⟩ := Option.isSome_iff_exists.mp hy
  rcases b with ⟨bx, byv, bwidth, bheight, bw, bh⟩
  simp only at hxv hyv
  subst hxv hyv
  have happ := applyTo_complete snap xv yv bwidth bheight bw bh
  have hsucc : (applyTo snap ⟨some xv, some yv, bwidth, bheight, bw, bh⟩).2 = true := by
    rw [happ]
  have hmain := restore_of_primary_success snap o _ hb hsucc
  refine ⟨hmain, ?_, ?_, ?_, ?_, ?_, ?_, ?_, ?_⟩
  · intro k hk
    rw [hmain]
    exact getShape_setShape_ne o _ k _ hk
  · rw [happ]
  · rw [happ]
  · intro sw hsw hbw
    obtain ⟨wv, hwv⟩ := Option.isSome_iff_exists.mp hbw
    simp only at hwv
    subst hwv
    rw [happ]
    simp [hsw]
  · intro sw hsw hbw hbw2
    obtain ⟨wv, hwv⟩ := Option.isSome_iff_exists.mp hbw2
    simp only at hbw hwv
    subst hbw hwv
    rw [happ]
    simp [hsw]
  · intro sh hsh hbh
    obtain ⟨hv, hhv⟩ := Option.isSome_iff_exists.mp hbh
    simp only at hhv
    subst hhv
    rw [happ]
    simp [hsh]
  · intro sh hsh hbh hbh2
    obtain ⟨hv, hhv⟩ := Option.isSome_iff_exists.mp hbh2
    simp only at hbh hhv
    subst hbh hhv
    rw [happ]
    simp [hsh]
  · intro o2 k ks hsk
    unfold restoreLoop
    simp [hsk]

/-- Witness for C7 at a concrete `pos`-mode snapshot: the primary `pos`
record is rewritten in place and no other shape is touched. -/
theorem restoreModelSnapshot_primary_first_witness :
    restoreModelSnapshot exSnapC7 exObjC7 =
      setShape exObjC7 (primaryKey exSnapC7.mode) (applyTo exSnapC7
        ⟨some 99, some 98, some 97, none, none, none⟩).1 ∧
    getShape (restoreModelSnapshot exSnapC7 exObjC7) ShapeKey.top =
      getShape exObjC7 ShapeKey.top := by
  have h := restoreModelSnapshot_primary_first exSnapC7 exObjC7
    ⟨some 99, some 98, some 97, none, none, none⟩ (by decide) (by decide) (by decide)
  exact ⟨h.1, h.2.1 ShapeKey.top (by decide)⟩

/-! ## Claim C10 -/

/-- C10: when the snapshot-recorded primary shape has a numeric `x` but
an absent/non-numeric `y`, `restoreModelSnapshot` overwrites that
shape's `x` with the snapshot's `x` and then moves on to the next
fallback shape; the failed write is not rolled back, so the rejected
shape ends up partially mutated in the final object. -/
theorem failed_primary_write_leaves_partial_mutation (snap : ModelSnapshot)
    (o : NodeObj) (b : GeomRec)
    (hb : getShape o (primaryKey snap.mode) = some b)
    (hx : b.x.isSome = true) (hy : b.y = none) :
    (applyTo snap b).2 = false ∧
    (applyTo snap b).1 = { b with x := some snap.x } ∧
    restoreModelSnapshot snap o =
      restoreLoop snap (setShape o (primaryKey snap.mode) { b with x := some snap.x })
        ((baseOrder snap.mode).tail) ∧
    getShape (restoreModelSnapshot snap o) (primaryKey snap.mode) =
      some { b with x := some snap.x } := by
  obtain ⟨xv, hxv⟩ := Option.isSome_iff_exists.mp hx
  rcases b with ⟨bx, byv, bwidth, bheight, bw, bh⟩
  simp only at hxv hy
  subst hxv hy
  have happ := applyTo_fail_y snap xv bwidth bheight bw bh
  have hloop : restoreModelSnapshot snap o =
      restoreLoop snap
        (setShape o (primaryKey snap.mode)
          ⟨some snap.x, none, bwidth, bheight, bw, bh⟩)
        ((baseOrder snap.mode).tail) := by
    cases hm : snap.mode <;>
      rw [hm] at hb <;>
      simp only [primaryKey] at hb ⊢ <;>
      simp [restoreModelSnapshot, hm, baseOrder, restoreLoop, applyToKey, hb, happ,
        primaryKey]
  refine ⟨by rw [happ], by rw [happ], hloop, ?_⟩
  rw [hloop,
    getShape_restoreLoop_not_mem snap ((baseOrder snap.mode).tail)
      (primaryKey snap.mode) (primaryKey_not_mem_tail snap.mode),
    getShape_setShape_self]

/-- Witness for C10 at a concrete `rect`-mode snapshot whose `rect`
record lost its numeric `y`: the final object keeps the half-written
`rect` (its `x` is the snapshot's, its `y` still missing). -/
theorem failed_primary_write_leaves_partial_mutation_witness :
    getShape (restoreModelSnapshot exSnapC10 exObjC10) (primaryKey exSnapC10.mode) =
      some ⟨some 21, none, some 70, none, none, none⟩ := by
  have h := failed_primary_write_leaves_partial_mutation exSnapC10 exObjC10
    ⟨some 77, none, some 70, none, none, none⟩ (by decide) (by decide) (by decide)
  exact h.2.2.2.trans (by decide)

/-! ## Claims C8 and C9 (detector-path behaviour) -/

theorem enforce_of_diverged (saved : ModelSnapshot) (o : NodeObj)
    (hdiv : diverged saved o = true) :
    enforceLockedNodeModel saved o = restoreModelSnapshot saved o := by
  unfold diverged at hdiv
  unfold enforceLockedNodeModel
  cases hr : readModelSnapshot o with
  | none => rfl
  | some current =>
    rw [hr] at hdiv
    simp only [Bool.not_eq_true'] at hdiv
    simp [hdiv]

theorem divergedC8 : diverged exSnapC8 exObjC8 = true := by
  have hread : readModelSnapshot exObjC8 = some ⟨Mode.top, 5, 2, none, none⟩ := by decide
  simp only [diverged, hread, Bool.not_eq_true']
  simp only [isSameSnapshot, exSnapC8, close, sameDim, eps]
  norm_num

/-- C8 counterexample: with the node's last restore recorded at time 0
and a second attempt at time 10 (within 50 ms), the mutation-observer
path suppresses the restore, but the enforcement-loop path — which
never consults `shouldThrottleRestore` — writes anyway, so the throttle
does not apply identically on both detector paths. -/
theorem throttle_not_identical_on_tick_counterexample :
    ((10 : Int) - exLastC8 "n" < 50) ∧
    (observerModelStep exSettingsC8 false exLastC8 "n" 10 exSnapC8 exObjC8).1 = exObjC8 ∧
    enforceLockedNodeModel exSnapC8 exObjC8 ≠ exObjC8 := by
  refine ⟨by decide, ?_, ?_⟩
  · have hnb : shouldBypass exSettingsC8 false = false := by decide
    simp [observerModelStep, hnb, divergedC8, shouldThrottleRestore, exLastC8]
  · rw [enforce_of_diverged exSnapC8 exObjC8 divergedC8]
    decide

/-- C8 (amended): the per-(canvas,node) 50 ms minimum restore interval
applies on the mutation-observer path — a model restore attempted
within 50 ms of the previous one for that pair performs no write, and
one attempted at or after 50 ms writes and records its timestamp —
while the enforcement-loop tick restores on every divergence without
consulting the throttle. -/
theorem throttle_observer_only (settings : LockCardsSettings) (altDown : Bool)
    (lastMap : String → Int) (nodeId : String) (now : Int)
    (saved : ModelSnapshot) (o : NodeObj)
    (hnb : shouldBypass settings altDown = false)
    (hdiv : diverged saved o = true) :
    (now - lastMap nodeId < 50 →
      observerModelStep settings altDown lastMap nodeId now saved o = (o, lastMap)) ∧
    (¬(now - lastMap nodeId < 50) →
      observerModelStep settings altDown lastMap nodeId now saved o =
        (restoreModelSnapshot saved o, updMap lastMap nodeId now)) ∧
    enforceLockedNodeModel saved o = restoreModelSnapshot saved o := by
  refine ⟨?_, ?_, enforce_of_diverged saved o hdiv⟩
  · intro ht
    simp [observerModelStep, hnb, hdiv, shouldThrottleRestore, ht]
  · intro ht
    simp [observerModelStep, hnb, hdiv, shouldThrottleRestore, ht]

/-- Witness for the amended C8: at 1000 ms after the last restore the
observer path writes; the tick path writes regardless. -/
theorem throttle_observer_only_witness :
    observerModelStep exSettingsC8 false exLastC8 "n" 1000 exSnapC8 exObjC8 =
      (restoreModelSnapshot exSnapC8 exObjC8, updMap exLastC8 "n" 1000) ∧
    enforceLockedNodeModel exSnapC8 exObjC8 = restoreModelSnapshot exSnapC8 exObjC8 := by
  have h := throttle_observer_only exSettingsC8 false exLastC8 "n" 1000 exSnapC8 exObjC8
    (by decide) divergedC8
  exact ⟨h.2.1 (by decide), h.2.2⟩

/-- C9: while the configured bypass modifier is held with the
disable-lock-while-modifier-held option enabled, neither detector path
performs any restore — the node object passes through unchanged — and
once the modifier is released, a divergence is restored again on the
next pass of either detector (the observer pass subject to its 50 ms
throttle being clear). -/
theorem bypass_modifier_suspends_enforcement (settings : LockCardsSettings)
    (lastMap : String → Int) (nodeId : String) (now : Int)
    (saved : ModelSnapshot) (o : NodeObj)
    (hs : settings.disableLockWhileAltDown = true)
    (hdiv : diverged saved o = true)
    (hthr : ¬(now - lastMap nodeId < 50)) :
    observerModelStep settings true lastMap nodeId now saved o = (o, lastMap) ∧
    tickModelStep settings true saved o = o ∧
    observerModelStep settings false lastMap nodeId now saved o =
      (restoreModelSnapshot saved o, updMap lastMap nodeId now) ∧
    tickModelStep settings false saved o = restoreModelSnapshot saved o := by
  have hbyp : shouldBypass settings true = true := by simp [shouldBypass, hs]
  have hnb : shouldBypass settings false = false := by simp [shouldBypass]
  refine ⟨?_, ?_, ?_, ?_⟩
  · simp [observerModelStep, hbyp]
  · simp [tickModelStep, hbyp]
  · simp [observerModelStep, hnb, hdiv, shouldThrottleRestore, hthr]
  · simp [tickModelStep, hnb, enforce_of_diverged saved o hdiv]

theorem divergedC9 : diverged exSnapC9 exObjC9 = true := by
  have hread : readModelSnapshot exObjC9 = some ⟨Mode.top, 30, 4, some 5, none⟩ := by
    decide
  simp only [diverged, hread, Bool.not_eq_true']
  simp only [isSameSnapshot, exSnapC9, close, sameDim, eps]
  norm_num

/-- Witness for C9 at a concrete diverged node: held modifier suppresses
the tick restore, released modifier restores. -/
theorem bypass_modifier_suspends_enforcement_witness :
    tickModelStep exSettingsC9 true exSnapC9 exObjC9 = exObjC9 ∧
    tickModelStep exSettingsC9 false exSnapC9 exObjC9 =
      restoreModelSnapshot exSnapC9 exObjC9 := by
  have h := bypass_modifier_suspends_enforcement exSettingsC9 exLastC9 "n" 1000
    exSnapC9 exObjC9 (by decide) divergedC9 (by decide)
  exact ⟨h.2.1, h.2.2.2⟩

/-! ## Claim C1: enforcement restores mutated geometry -/

theorem recPresEq_refl (a : GeomRec) : recPresEq a a :=
  ⟨rfl, rfl, rfl, rfl, rfl, rfl⟩

theorem recPresEq_trans {a b c : GeomRec} (h1 : recPresEq a b) (h2 : recPresEq b c) :
    recPresEq a c :=
  ⟨h1.1.trans h2.1, h1.2.1.trans h2.2.1, h1.2.2.1.trans h2.2.2.1,
   h1.2.2.2.1.trans h2.2.2.2.1, h1.2.2.2.2.1.trans h2.2.2.2.2.1,
   h1.2.2.2.2.2.trans h2.2.2.2.2.2⟩

theorem optPresEq_refl (a : Option GeomRec) : optPresEq a a := by
  cases a with
  | none => trivial
  | some b => exact recPresEq_refl b

theorem optPresEq_trans {a b c : Option GeomRec} (h1 : optPresEq a b)
    (h2 : optPresEq b c) : optPresEq a c := by
  cases a <;> cases b <;> cases c <;> simp_all [optPresEq]
  exact recPresEq_trans h1 h2

theorem presEq_refl (o : NodeObj) : presEq o o :=
  ⟨recPresEq_refl _, optPresEq_refl _, optPresEq_refl _, optPresEq_refl _⟩

theorem presEq_trans {a b c : NodeObj} (h1 : presEq a b) (h2 : presEq b c) :
    presEq a c :=
  ⟨recPresEq_trans h1.1 h2.1, optPresEq_trans h1.2.1 h2.2.1,
   optPresEq_trans h1.2.2.1 h2.2.2.1, optPresEq_trans h1.2.2.2 h2.2.2.2⟩

theorem recPresEq_setNumField (b : GeomRec) (f : GeomField) (v : ℚ) :
    recPresEq b (setNumField b f v) := by
  cases f <;>
    first
      | ((cases hx : b.x <;> simp [setNumField, recPresEq, hx]) <;> done)
      | ((cases hx : b.y <;> simp [setNumField, recPresEq, hx]) <;> done)
      | ((cases hx : b.width <;> simp [setNumField, recPresEq, hx]) <;> done)
      | ((cases hx : b.height <;> simp [setNumField, recPresEq, hx]) <;> done)
      | ((cases hx : b.w <;> simp [setNumField, recPresEq, hx]) <;> done)
      | ((cases hx : b.h <;> simp [setNumField, recPresEq, hx]) <;> done)

theorem presEq_applyMut (o : NodeObj) (m : GeomMut) : presEq o (applyMut o m) := by
  rcases m with ⟨s, f, v⟩
  cases s with
  | top =>
    exact ⟨recPresEq_setNumField o.top f v, optPresEq_refl _, optPresEq_refl _,
      optPresEq_refl _⟩
  | pos =>
    unfold applyMut
    cases hp : o.pos with
    | none => exact presEq_refl o
    | some b =>
      exact ⟨recPresEq_refl _, by rw [hp]; exact recPresEq_setNumField b f v,
        optPresEq_refl _, optPresEq_refl _⟩
  | rect =>
    unfold applyMut
    cases hp : o.rect with
    | none => exact presEq_refl o
    | some b =>
      exact ⟨recPresEq_refl _, optPresEq_refl _,
        by rw [hp]; exact recPresEq_setNumField b f v, optPresEq_refl _⟩
  | data =>
    unfold applyMut
    cases hp : o.data with
    | none => exact presEq_refl o
    | some b =>
      exact ⟨recPresEq_refl _, optPresEq_refl _, optPresEq_refl _,
        by rw [hp]; exact recPresEq_setNumField b f v⟩

theorem presEq_applyMuts (ms : List GeomMut) (o : NodeObj) :
    presEq o (applyMuts ms o) := by
  induction ms generalizing o with
  | nil => exact presEq_refl o
  | cons m ms ih =>
    exact presEq_trans (presEq_applyMut o m) (ih (applyMut o m))

theorem fromObj_none_iff (b : GeomRec) (m : Mode) :
    fromObj (some b) m = none ↔ (b.x.isSome && b.y.isSome) = false := by
  cases hx : b.x <;> cases hy : b.y <;> simp [fromObj, hx, hy]

theorem fromObj_some_elim (b : GeomRec) (m : Mode) (s : ModelSnapshot)
    (h : fromObj (some b) m = some s) :
    b.x = some s.x ∧ b.y = some s.y ∧ s.mode = m ∧
    s.w = pick b.width b.w ∧ s.h = pick b.height b.h := by
  cases hx : b.x with
  | none => simp [fromObj, hx] at h
  | some xv =>
    cases hy : b.y with
    | none => simp [fromObj, hx, hy] at h
    | some yv =>
      simp only [fromObj, hx, hy, Option.some.injEq] at h
      subst h
      exact ⟨rfl, rfl, rfl, rfl, rfl⟩

theorem fromObj_none_pres {r0 r1 : Option GeomRec} (hpq : optPresEq r0 r1)
    (m m' : Mode) (h : fromObj r0 m = none) : fromObj r1 m' = none := by
  cases r0 with
  | none =>
    cases r1 with
    | none => rfl
    | some b1 => exact absurd hpq (by simp [optPresEq])
  | some b0 =>
    cases r1 with
    | none => exact absurd hpq (by simp [optPresEq])
    | some b1 =>
      have hq : recPresEq b0 b1 := hpq
      rw [fromObj_none_iff] at h ⊢
      rw [← hq.1, ← hq.2.1]
      exact h

theorem read_cases (o : NodeObj) (s : ModelSnapshot)
    (h : readModelSnapshot o = some s) :
    fromObj (some o.top) Mode.top = some s ∨
    (fromObj (some o.top) Mode.top = none ∧ fromObj o.pos Mode.pos = some s) ∨
    (fromObj (some o.top) Mode.top = none ∧ fromObj o.pos Mode.pos = none ∧
      fromObj o.rect Mode.rect = some s) ∨
    (fromObj (some o.top) Mode.top = none ∧ fromObj o.pos Mode.pos = none ∧
      fromObj o.rect Mode.rect = none ∧ fromObj o.data Mode.data = some s) := by
  unfold readModelSnapshot at h
  cases h1 : fromObj (some o.top) Mode.top with
  | some s1 =>
    rw [h1] at h
    simp only [] at h
    exact Or.inl h
  | none =>
    rw [h1] at h
    simp only [] at h
    cases h2 : fromObj o.pos Mode.pos with
    | some s2 =>
      rw [h2] at h
      simp only [] at h
      exact Or.inr (Or.inl ⟨rfl, h⟩)
    | none =>
      rw [h2] at h
      simp only [] at h
      cases h3 : fromObj o.rect Mode.rect with
      | some s3 =>
        rw [h3] at h
        simp only [] at h
        exact Or.inr (Or.inr (Or.inl ⟨rfl, rfl, h⟩))
      | none =>
        rw [h3] at h
        simp only [] at h
        exact Or.inr (Or.inr (Or.inr ⟨rfl, rfl, rfl, h⟩))

set_option maxRecDepth 4096 in
/-- A structurally successful write to a record whose dimension-field
presence matches the snapshot reads back as exactly the snapshot's
numbers. -/
theorem applyTo_writes_read (snap : ModelSnapshot) (b : GeomRec)
    (hx : b.x.isSome = true) (hy : b.y.isSome = true)
    (hw : snap.w.isSome = (b.width.isSome || b.w.isSome))
    (hh : snap.h.isSome = (b.height.isSome || b.h.isSome)) :
    (applyTo snap b).2 = true ∧
    ∀ m, fromObj (some (applyTo snap b).1) m =
      some ⟨m, snap.x, snap.y, snap.w, snap.h⟩ := by
  obtain ⟨xv, hxv⟩ := Option.isSome_iff_exists.mp hx
  obtain ⟨yv, hyv⟩ := Option.isSome_iff_exists.mp hy
  rcases snap with ⟨sm, sx, sy, sw, sh⟩
  rcases b with ⟨bx, byv, bwd, bht, bw, bh⟩
  simp only at hxv hyv hw hh
  subst hxv hyv
  rw [applyTo_complete]
  refine ⟨rfl, ?_⟩
  intro m
  revert hw hh
  cases sw <;> cases sh <;> cases bwd <;> cases bht <;> cases bw <;> cases bh <;>
    intro hw hh <;>
    first
      | rfl
      | (exfalso; simp at hw hh)

/-- After a restore, reading the geometry back yields exactly the saved
snapshot, provided the object still has the field-presence pattern it
had when the snapshot was captured. -/
theorem read_restore (o0 o1 : NodeObj) (snap : ModelSnapshot)
    (hp : presEq o0 o1) (hs : readModelSnapshot o0 = some snap) :
    readModelSnapshot (restoreModelSnapshot snap o1) = some snap := by
  obtain ⟨hpt, hpp, hpr, hpd⟩ := hp
  rcases read_cases o0 snap hs with h1 | ⟨h0, h1⟩ | ⟨h0a, h0b, h1⟩ | ⟨h0a, h0b, h0c, h1⟩
  · -- snapshot was read from the object itself
    obtain ⟨hbx, hby, hmode, hw, hh⟩ := fromObj_some_elim _ _ _ h1
    have hx1 : o1.top.x.isSome = true := by rw [← hpt.1, hbx]; rfl
    have hy1 : o1.top.y.isSome = true := by rw [← hpt.2.1, hby]; rfl
    have hw1 : snap.w.isSome = (o1.top.width.isSome || o1.top.w.isSome) := by
      rw [hw, pick_isSome, hpt.2.2.1, hpt.2.2.2.2.1]
    have hh1 : snap.h.isSome = (o1.top.height.isSome || o1.top.h.isSome) := by
      rw [hh, pick_isSome, hpt.2.2.2.1, hpt.2.2.2.2.2]
    obtain ⟨hsucc, hread⟩ := applyTo_writes_read snap o1.top hx1 hy1 hw1 hh1
    have hrm : restoreModelSnapshot snap o1 = { o1 with top := (applyTo snap o1.top).1 } := by
      rw [restoreModelSnapshot, hmode]
      simp [baseOrder, restoreLoop, applyToKey, getShape, hsucc, setShape]
    rw [hrm, readModelSnapshot]
    simp only [hread Mode.top]
    rw [← hmode]
  · -- snapshot was read from the nested pos record
    cases ho0p : o0.pos with
    | none => rw [ho0p] at h1; exact absurd h1 (by simp [fromObj])
    | some p0 =>
      rw [ho0p] at h1 hpp
      cases ho1p : o1.pos with
      | none => rw [ho1p] at hpp; exact absurd hpp (by simp [optPresEq])
      | some p1 =>
        rw [ho1p] at hpp
        have hpq : recPresEq p0 p1 := hpp
        obtain ⟨hbx, hby, hmode, hw, hh⟩ := fromObj_some_elim _ _ _ h1
        have hx1 : p1.x.isSome = true := by rw [← hpq.1, hbx]; rfl
        have hy1 : p1.y.isSome = true := by rw [← hpq.2.1, hby]; rfl
        have hw1 : snap.w.isSome = (p1.width.isSome || p1.w.isSome) := by
          rw [hw, pick_isSome, hpq.2.2.1, hpq.2.2.2.2.1]
        have hh1 : snap.h.isSome = (p1.height.isSome || p1.h.isSome) := by
          rw [hh, pick_isSome, hpq.2.2.2.1, hpq.2.2.2.2.2]
        obtain ⟨hsucc, hread⟩ := applyTo_writes_read snap p1 hx1 hy1 hw1 hh1
        have h0' : fromObj (some o1.top) Mode.top = none :=
          fromObj_none_pres (show optPresEq (some o0.top) (some o1.top) from hpt)
            Mode.top Mode.top h0
        have hrm : restoreModelSnapshot snap o1 =
            { o1 with pos := some (applyTo snap p1).1 } := by
          rw [restoreModelSnapshot, hmode]
          simp [baseOrder, restoreLoop, applyToKey, getShape, ho1p, hsucc, setShape]
        rw [hrm, readModelSnapshot]
        simp only [h0', hread Mode.pos]
        rw [← hmode]
  · -- snapshot was read from the nested rect record
    cases ho0r : o0.rect with
    | none => rw [ho0r] at h1; exact absurd h1 (by simp [fromObj])
    | some r0 =>
      rw [ho0r] at h1 hpr
      cases ho1r : o1.rect with
      | none => rw [ho1r] at hpr; exact absurd hpr (by simp [optPresEq])
      | some r1 =>
        rw [ho1r] at hpr
        have hpq : recPresEq r0 r1 := hpr
        obtain ⟨hbx, hby, hmode, hw, hh⟩ := fromObj_some_elim _ _ _ h1
        have hx1 : r1.x.isSome = true := by rw [← hpq.1, hbx]; rfl
        have hy1 : r1.y.isSome = true := by rw [← hpq.2.1, hby]; rfl
        have hw1 : snap.w.isSome = (r1.width.isSome || r1.w.isSome) := by
          rw [hw, pick_isSome, hpq.2.2.1, hpq.2.2.2.2.1]
        have hh1 : snap.h.isSome = (r1.height.isSome || r1.h.isSome) := by
          rw [hh, pick_isSome, hpq.2.2.2.1, hpq.2.2.2.2.2]
        obtain ⟨hsucc, hread⟩ := applyTo_writes_read snap r1 hx1 hy1 hw1 hh1
        have h0a' : fromObj (some o1.top) Mode.top = none :=
          fromObj_none_pres (show optPresEq (some o0.top) (some o1.top) from hpt)
            Mode.top Mode.top h0a
        have h0b' : fromObj o1.pos Mode.pos = none :=
          fromObj_none_pres hpp Mode.pos Mode.pos h0b
        have hrm : restoreModelSnapshot snap o1 =
            { o1 with rect := some (applyTo snap r1).1 } := by
          rw [restoreModelSnapshot, hmode]
          simp [baseOrder, restoreLoop, applyToKey, getShape, ho1r, hsucc, setShape]
        rw [hrm, readModelSnapshot]
        simp only [h0a', h0b', hread Mode.rect]
        rw [← hmode]
  · -- snapshot was read from the nested data record
    cases ho0d : o0.data with
    | none => rw [ho0d] at h1; exact absurd h1 (by simp [fromObj])
    | some d0 =>
      rw [ho0d] at h1 hpd
      cases ho1d : o1.data with
      | none => rw [ho1d] at hpd; exact absurd hpd (by simp [optPresEq])
      | some d1 =>
        rw [ho1d] at hpd
        have hpq : recPresEq d0 d1 := hpd
        obtain ⟨hbx, hby, hmode, hw, hh⟩ := fromObj_some_elim _ _ _ h1
        have hx1 : d1.x.isSome = true := by rw [← hpq.1, hbx]; rfl
        have hy1 : d1.y.isSome = true := by rw [← hpq.2.1, hby]; rfl
        have hw1 : snap.w.isSome = (d1.width.isSome || d1.w.isSome) := by
          rw [hw, pick_isSome, hpq.2.2.1, hpq.2.2.2.2.1]
        have hh1 : snap.h.isSome = (d1.height.isSome || d1.h.isSome) := by
          rw [hh, pick_isSome, hpq.2.2.2.1, hpq.2.2.2.2.2]
        obtain ⟨hsucc, hread⟩ := applyTo_writes_read snap d1 hx1 hy1 hw1 hh1
        have h0a' : fromObj (some o1.top) Mode.top = none :=
          fromObj_none_pres (show optPresEq (some o0.top) (some o1.top) from hpt)
            Mode.top Mode.top h0a
        have h0b' : fromObj o1.pos Mode.pos = none :=
          fromObj_none_pres hpp Mode.pos Mode.pos h0b
        have h0c' : fromObj o1.rect Mode.rect = none :=
          fromObj_none_pres hpr Mode.rect Mode.rect h0c
        have hrm : restoreModelSnapshot snap o1 =
            { o1 with data := some (applyTo snap d1).1 } := by
          rw [restoreModelSnapshot, hmode]
          simp [baseOrder, restoreLoop, applyToKey, getShape, ho1d, hsucc, setShape]
        rw [hrm, readModelSnapshot]
        simp only [h0a', h0b', h0c', hread Mode.data]
        rw [← hmode]

theorem close_self (x : ℚ) : close x x = true := by
  simp only [close, sub_self, abs_zero, decide_eq_true_eq]
  norm_num [eps]

theorem sameDim_self (a : Option ℚ) : sameDim a a = true := by
  cases a <;> simp [sameDim, close_self]

theorem isSameSnapshot_self (s : ModelSnapshot) : isSameSnapshot s s = true := by
  simp [isSameSnapshot, close_self, sameDim_self]

/-- C1: for a locked node whose geometry snapshot was captured from its
backing object, any sequence of geometry mutations followed by one
`enforceLockedNodesOnce` model pass leaves the geometry equal to the
snapshot within the absolute tolerance 1e-4 (the engine's own
`isSameSnapshot` comparison). -/
theorem locked_node_geometry_restored (o0 : NodeObj) (snap : ModelSnapshot)
    (ms : List GeomMut) (hsnap : readModelSnapshot o0 = some snap) :
    ∃ cur, readModelSnapshot (enforceLockedNodeModel snap (applyMuts ms o0)) = some cur ∧
      isSameSnapshot cur snap = true := by
  have hp : presEq o0 (applyMuts ms o0) := presEq_applyMuts ms o0
  unfold enforceLockedNodeModel
  cases hr : readModelSnapshot (applyMuts ms o0) with
  | none =>
    exact ⟨snap, read_restore o0 _ snap hp hsnap, isSameSnapshot_self snap⟩
  | some current =>
    by_cases hsame : isSameSnapshot current snap = true
    · simp only []
      rw [if_pos hsame]
      exact ⟨current, hr, hsame⟩
    · simp only []
      rw [if_neg hsame]
      exact ⟨snap, read_restore o0 _ snap hp hsnap, isSameSnapshot_self snap⟩

/-- Witness for C1: a concrete locked node dragged and resized, then
enforced once. -/
theorem locked_node_geometry_restored_witness :
    ∃ cur, readModelSnapshot (enforceLockedNodeModel ⟨Mode.top, 10, 20, some 100, some 50⟩
        (applyMuts exMutsC1 exObjC1)) = some cur ∧
      isSameSnapshot cur ⟨Mode.top, 10, 20, some 100, some 50⟩ = true :=
  locked_node_geometry_restored exObjC1 ⟨Mode.top, 10, 20, some 100, some 50⟩ exMutsC1
    (by decide)

/-! ## Claims C2 and C3: the lock/unlock state machine -/

theorem contains_iff_mem (l : List String) (a : String) :
    l.contains a = true ↔ a ∈ l := by
  induction l with
  | nil => simp
  | cons b t ih => simp [List.contains_cons, ih, List.mem_cons, beq_iff_eq, or_comm]

theorem contains_eq_false_iff (l : List String) (a : String) :
    l.contains a = false ↔ ¬ a ∈ l := by
  rw [← contains_iff_mem]
  cases h : l.contains a <;> simp

theorem mem_setAdd (l : List String) (id a : String) :
    a ∈ setAdd l id ↔ a ∈ l ∨ a = id := by
  by_cases hc : l.contains id = true
  · rw [setAdd, if_pos hc]
    have hm := (contains_iff_mem l id).mp hc
    constructor
    · exact Or.inl
    · rintro (h | rfl)
      · exact h
      · exact hm
  · rw [setAdd, if_neg hc]
    simp [List.mem_append]

theorem mem_foldl_setAdd (l : List String) :
    ∀ (acc : List String) (a : String),
      a ∈ l.foldl setAdd acc ↔ a ∈ acc ∨ a ∈ l := by
  induction l with
  | nil => simp
  | cons b t ih =>
    intro acc a
    rw [List.foldl_cons, ih, mem_setAdd]
    simp [List.mem_cons]
    tauto

theorem mem_jsSetOfList (l : List String) (a : String) :
    a ∈ jsSetOfList l ↔ a ∈ l := by
  rw [jsSetOfList, mem_foldl_setAdd]
  simp

theorem foldl_preserve {S : Type} (P : S → Prop) {f : S → String → S}
    (hp : ∀ s id, P s → P (f s id)) :
    ∀ (l : List String) (s : S), P s → P (l.foldl f s) := by
  intro l
  induction l with
  | nil => intro s h; exact h
  | cons a t ih => intro s h; exact ih (f s a) (hp s a h)

theorem foldl_establish {S : Type} (P : S → String → Prop) {f : S → String → S} :
    ∀ l : List String,
      (∀ s id, id ∈ l → P (f s id) id) →
      (∀ s id id', P s id → P (f s id') id) →
      ∀ (s : S) (id : String), id ∈ l → P (l.foldl f s) id := by
  intro l
  induction l with
  | nil => intro _ _ s id h; exact absurd h (List.not_mem_nil id)
  | cons a t ih =>
    intro hest hpres s id h
    rcases List.mem_cons.mp h with heq | ht
    · subst heq
      have h1 : P (f s id) id := hest s id (List.mem_cons_self id t)
      rw [List.foldl_cons]
      exact foldl_preserve (fun s2 => P s2 id)
        (fun s2 id' hp2 => hpres s2 id id' hp2) t (f s id) h1
    · rw [List.foldl_cons]
      exact ih (fun s2 id2 hm => hest s2 id2 (List.mem_cons_of_mem a hm)) hpres
        (f s a) id ht

theorem isLocked_setLocked_self (st : ManagerState) (p id : String) (b : Bool) :
    isLocked (setLocked st p id b) p id = b := by
  unfold isLocked setLocked upd
  simp only [if_pos rfl, Option.getD_some]
  cases b with
  | true =>
    simp only [if_pos rfl]
    exact (contains_iff_mem _ _).mpr ((mem_setAdd _ id id).mpr (Or.inr rfl))
  | false =>
    simp only [if_neg (Bool.false_ne_true), Bool.false_eq_true, if_false]
    rw [contains_eq_false_iff]
    intro hmem
    have := (List.mem_filter.mp hmem).2
    simp at this

theorem isLocked_setLocked_pres (st : ManagerState) (p id id' : String) (b : Bool)
    (h : isLocked st p id = b) :
    isLocked (setLocked st p id' b) p id = b := by
  by_cases hii : id = id'
  · subst hii; exact isLocked_setLocked_self st p id b
  · unfold isLocked setLocked upd
    unfold isLocked at h
    simp only [if_pos rfl, Option.getD_some]
    cases b with
    | true =>
      simp only [if_pos rfl]
      rw [contains_iff_mem]
      rw [contains_iff_mem] at h
      exact (mem_setAdd _ id' id).mpr
        (Or.inl ((mem_jsSetOfList _ id).mpr h))
    | false =>
      simp only [if_neg (Bool.false_ne_true), Bool.false_eq_true, if_false]
      rw [contains_eq_false_iff]
      rw [contains_eq_false_iff] at h
      intro hmem
      exact h ((mem_jsSetOfList _ id).mp (List.mem_filter.mp hmem).1)

theorem getInner_setInner {α : Type} (m : StrMap (StrMap α)) (p id' id : String)
    (v : α) :
    getInner (setInner m p id' v) p id = if id = id' then some v else getInner m p id := by
  cases hmp : m p <;>
    · simp [getInner, setInner, upd, hmp]
      try (split <;> rfl)

theorem getInner_delInner {α : Type} (m : StrMap (StrMap α)) (p id' id : String) :
    getInner (delInner m p id') p id = if id = id' then none else getInner m p id := by
  cases hmp : m p <;>
    · simp [getInner, delInner, upd, hmp]
      try (split <;> rfl)

theorem snapshotOnLock_lockedByCanvas (st : ManagerState) (p : String) (env : NodeView)
    (id : String) :
    (snapshotOnLock st p env id).lockedByCanvas = st.lockedByCanvas := by
  unfold snapshotOnLock
  cases he : env.elOf id with
  | none => rfl
  | some ne =>
    cases hs : (env.objOf id).bind readModelSnapshot <;> rfl

theorem forgetOnUnlock_lockedByCanvas (st : ManagerState) (p id : String) :
    (forgetOnUnlock st p id).lockedByCanvas = st.lockedByCanvas := rfl

theorem snapshotOnLock_establishes (st : ManagerState) (p : String) (env : NodeView)
    (id : String) (hel : (env.elOf id).isSome = true)
    (hobj : ((env.objOf id).bind readModelSnapshot).isSome = true) :
    (getInner (snapshotOnLock st p env id).lockedStyleByCanvas p id).isSome = true ∧
    (getInner (snapshotOnLock st p env id).lockedMoveStyleByCanvas p id).isSome = true ∧
    (getInner (snapshotOnLock st p env id).lockedModelByCanvas p id).isSome = true := by
  obtain ⟨ne, hne⟩ := Option.isSome_iff_exists.mp hel
  obtain ⟨snap, hsnap⟩ := Option.isSome_iff_exists.mp hobj
  unfold snapshotOnLock
  rw [hne]
  simp only [hsnap]
  refine ⟨?_, ?_, ?_⟩ <;> simp [getInner_setInner]

theorem snapshotOnLock_preserves (st : ManagerState) (p : String) (env : NodeView)
    (id id' : String)
    (h : (getInner st.lockedStyleByCanvas p id).isSome = true ∧
      (getInner st.lockedMoveStyleByCanvas p id).isSome = true ∧
      (getInner st.lockedModelByCanvas p id).isSome = true) :
    (getInner (snapshotOnLock st p env id').lockedStyleByCanvas p id).isSome = true ∧
    (getInner (snapshotOnLock st p env id').lockedMoveStyleByCanvas p id).isSome = true ∧
    (getInner (snapshotOnLock st p env id').lockedModelByCanvas p id).isSome = true := by
  unfold snapshotOnLock
  cases he : env.elOf id' with
  | none => exact h
  | some ne =>
    cases hs : (env.objOf id').bind readModelSnapshot with
    | none =>
      simp only []
      refine ⟨?_, ?_, ?_⟩
      · rw [getInner_setInner]; split <;> simp_all
      · rw [getInner_setInner]; split <;> simp_all
      · exact h.2.2
    | some snap =>
      simp only []
      refine ⟨?_, ?_, ?_⟩ <;>
        · rw [getInner_setInner]
          split <;> simp_all

theorem forgetOnUnlock_establishes (st : ManagerState) (p id : String) :
    getInner (forgetOnUnlock st p id).lockedStyleByCanvas p id = none ∧
    getInner (forgetOnUnlock st p id).lockedMoveStyleByCanvas p id = none ∧
    getInner (forgetOnUnlock st p id).lockedModelByCanvas p id = none := by
  unfold forgetOnUnlock
  refine ⟨?_, ?_, ?_⟩ <;> simp [getInner_delInner]

theorem forgetOnUnlock_preserves (st : ManagerState) (p id id' : String)
    (h : getInner st.lockedStyleByCanvas p id = none ∧
      getInner st.lockedMoveStyleByCanvas p id = none ∧
      getInner st.lockedModelByCanvas p id = none) :
    getInner (forgetOnUnlock st p id').lockedStyleByCanvas p id = none ∧
    getInner (forgetOnUnlock st p id').lockedMoveStyleByCanvas p id = none ∧
    getInner (forgetOnUnlock st p id').lockedModelByCanvas p id = none := by
  unfold forgetOnUnlock
  refine ⟨?_, ?_, ?_⟩ <;>
    · rw [getInner_delInner]
      split <;> simp_all

/-- C3: on a canvas whose locked set is non-empty, `unlockAllInCanvas`
returns the number of locked ids, empties the canvas's locked set,
deletes all three snapshot kinds for each of those ids, and an
immediately following call on the same canvas returns 0. -/
theorem unlockAllInCanvas_spec (st : ManagerState) (p : String)
    (hne : (st.lockedByCanvas p).getD [] ≠ []) :
    (unlockAllInCanvas st p).2 = ((st.lockedByCanvas p).getD []).length ∧
    ((unlockAllInCanvas st p).1.lockedByCanvas p).getD [] = [] ∧
    (∀ id ∈ (st.lockedByCanvas p).getD [],
      getInner (unlockAllInCanvas st p).1.lockedStyleByCanvas p id = none ∧
      getInner (unlockAllInCanvas st p).1.lockedMoveStyleByCanvas p id = none ∧
      getInner (unlockAllInCanvas st p).1.lockedModelByCanvas p id = none) ∧
    (unlockAllInCanvas (unlockAllInCanvas st p).1 p).2 = 0 := by
  have hlen : ¬ ((st.lockedByCanvas p).getD []).length = 0 :=
    fun h => hne (List.length_eq_zero.mp h)
  have hsnd : (unlockAllInCanvas st p).2 = ((st.lockedByCanvas p).getD []).length := by
    simp only [unlockAllInCanvas]
    rw [if_neg hlen]
  have hlbc : (unlockAllInCanvas st p).1.lockedByCanvas =
      upd (((st.lockedByCanvas p).getD []).foldl
        (fun s id => forgetOnUnlock s p id) st).lockedByCanvas p (some []) := by
    simp only [unlockAllInCanvas]
    rw [if_neg hlen]
  have hsty : (unlockAllInCanvas st p).1.lockedStyleByCanvas =
      (((st.lockedByCanvas p).getD []).foldl
        (fun s id => forgetOnUnlock s p id) st).lockedStyleByCanvas := by
    simp only [unlockAllInCanvas]
    rw [if_neg hlen]
  have hmov : (unlockAllInCanvas st p).1.lockedMoveStyleByCanvas =
      (((st.lockedByCanvas p).getD []).foldl
        (fun s id => forgetOnUnlock s p id) st).lockedMoveStyleByCanvas := by
    simp only [unlockAllInCanvas]
    rw [if_neg hlen]
  have hmod : (unlockAllInCanvas st p).1.lockedModelByCanvas =
      (((st.lockedByCanvas p).getD []).foldl
        (fun s id => forgetOnUnlock s p id) st).lockedModelByCanvas := by
    simp only [unlockAllInCanvas]
    rw [if_neg hlen]
  have hempty : ((unlockAllInCanvas st p).1.lockedByCanvas p).getD [] = [] := by
    rw [hlbc]
    simp [upd]
  refine ⟨hsnd, hempty, ?_, ?_⟩
  · intro id hid
    have h3 := foldl_establish
      (fun s j =>
        getInner s.lockedStyleByCanvas p j = none ∧
        getInner s.lockedMoveStyleByCanvas p j = none ∧
        getInner s.lockedModelByCanvas p j = none)
      ((st.lockedByCanvas p).getD [])
      (fun s j _ => forgetOnUnlock_establishes s p j)
      (fun s j j2 hh => forgetOnUnlock_preserves s p j j2 hh) st id hid
    exact ⟨by rw [hsty]; exact h3.1, by rw [hmov]; exact h3.2.1, by rw [hmod]; exact h3.2.2⟩
  · have hzero : ∀ Y : ManagerState, (Y.lockedByCanvas p).getD [] = [] →
        (unlockAllInCanvas Y p).2 = 0 := by
      intro Y hY
      simp only [unlockAllInCanvas, hY]
      rfl
    exact hzero _ hempty

/-- Witness for C3: a canvas with three locked ids. -/
theorem unlockAllInCanvas_spec_witness :
    (unlockAllInCanvas exStC3 "c").2 = 3 ∧
    ((unlockAllInCanvas exStC3 "c").1.lockedByCanvas "c").getD [] = [] ∧
    getInner (unlockAllInCanvas exStC3 "c").1.lockedModelByCanvas "c" "a" = none ∧
    (unlockAllInCanvas (unlockAllInCanvas exStC3 "c").1 "c").2 = 0 := by
  have h := unlockAllInCanvas_spec exStC3 "c" (by decide)
  exact ⟨h.1.trans (by decide), h.2.1, (h.2.2.1 "a" (by decide)).2.2, h.2.2.2⟩

/-- C2: running the toggle command on a non-empty selection locks and
snapshots every selected node as soon as at least one of them is
unlocked; only when every selected node is already locked does it
unlock the whole selection and forget all its snapshots. -/
theorem toggle_lock_policy (st : ManagerState) (p : String) (env : NodeView)
    (sel : List String) (hne : sel ≠ [])
    (henv : ∀ id ∈ sel, (env.elOf id).isSome = true ∧
      ((env.objOf id).bind readModelSnapshot).isSome = true) :
    ((∃ id ∈ sel, isLocked st p id = false) →
      ∀ id ∈ sel,
        isLocked (toggleLockCommand st p env sel) p id = true ∧
        (getInner (toggleLockCommand st p env sel).lockedStyleByCanvas p id).isSome = true ∧
        (getInner (toggleLockCommand st p env sel).lockedMoveStyleByCanvas p id).isSome
          = true ∧
        (getInner (toggleLockCommand st p env sel).lockedModelByCanvas p id).isSome
          = true) ∧
    ((∀ id ∈ sel, isLocked st p id = true) →
      ∀ id ∈ sel,
        isLocked (toggleLockCommand st p env sel) p id = false ∧
        getInner (toggleLockCommand st p env sel).lockedStyleByCanvas p id = none ∧
        getInner (toggleLockCommand st p env sel).lockedMoveStyleByCanvas p id = none ∧
        getInner (toggleLockCommand st p env sel).lockedModelByCanvas p id = none) := by
  constructor
  · intro hex id hid
    have hany : (sel.any fun j => !(isLocked st p j)) = true := by
      rw [List.any_eq_true]
      obtain ⟨j, hj, hjf⟩ := hex
      exact ⟨j, hj, by simp [hjf]⟩
    have hcmd : toggleLockCommand st p env sel =
        sel.foldl (fun s j => snapshotOnLock s p env j)
          (sel.foldl (fun s j => setLocked s p j true) st) := by
      simp only [toggleLockCommand, hany, if_true]
    rw [hcmd]
    have hlock1 : isLocked (sel.foldl (fun s j => setLocked s p j true) st) p id = true :=
      foldl_establish (fun s j => isLocked s p j = true) sel
        (fun s j _ => isLocked_setLocked_self s p j true)
        (fun s j j' hh => isLocked_setLocked_pres s p j j' true hh) st id hid
    have hlbc : (sel.foldl (fun s j => snapshotOnLock s p env j)
        (sel.foldl (fun s j => setLocked s p j true) st)).lockedByCanvas =
        (sel.foldl (fun s j => setLocked s p j true) st).lockedByCanvas :=
      foldl_preserve (fun s2 : ManagerState => s2.lockedByCanvas =
          (sel.foldl (fun s j => setLocked s p j true) st).lockedByCanvas)
        (fun s2 j hp => (snapshotOnLock_lockedByCanvas s2 p env j).trans hp) sel _ rfl
    have hsnaps := foldl_establish
      (fun s j =>
        (getInner s.lockedStyleByCanvas p j).isSome = true ∧
        (getInner s.lockedMoveStyleByCanvas p j).isSome = true ∧
        (getInner s.lockedModelByCanvas p j).isSome = true) sel
      (fun s j hj => snapshotOnLock_establishes s p env j (henv j hj).1 (henv j hj).2)
      (fun s j j' hh => snapshotOnLock_preserves s p env j j' hh)
      (sel.foldl (fun s j => setLocked s p j true) st) id hid
    refine ⟨?_, hsnaps.1, hsnaps.2.1, hsnaps.2.2⟩
    unfold isLocked
    rw [hlbc]
    exact hlock1
  · intro hall id hid
    have hany : (sel.any fun j => !(isLocked st p j)) = false := by
      cases hA : sel.any fun j => !(isLocked st p j) with
      | false => rfl
      | true =>
        obtain ⟨j, hj, hjf⟩ := List.any_eq_true.mp hA
        have := hall j hj
        simp [this] at hjf
    have hcmd : toggleLockCommand st p env sel =
        sel.foldl (fun s j => forgetOnUnlock s p j)
          (sel.foldl (fun s j => setLocked s p j false) st) := by
      simp only [toggleLockCommand, hany, Bool.false_eq_true, if_false]
    rw [hcmd]
    have hlock1 : isLocked (sel.foldl (fun s j => setLocked s p j false) st) p id
        = false :=
      foldl_establish (fun s j => isLocked s p j = false) sel
        (fun s j _ => isLocked_setLocked_self s p j false)
        (fun s j j' hh => isLocked_setLocked_pres s p j j' false hh) st id hid
    have hlbc : (sel.foldl (fun s j => forgetOnUnlock s p j)
        (sel.foldl (fun s j => setLocked s p j false) st)).lockedByCanvas =
        (sel.foldl (fun s j => setLocked s p j false) st).lockedByCanvas :=
      foldl_preserve (fun s2 : ManagerState => s2.lockedByCanvas =
          (sel.foldl (fun s j => setLocked s p j false) st).lockedByCanvas)
        (fun s2 j hp => (forgetOnUnlock_lockedByCanvas s2 p j).trans hp) sel _ rfl
    have hsnaps := foldl_establish
      (fun s j =>
        getInner s.lockedStyleByCanvas p j = none ∧
        getInner s.lockedMoveStyleByCanvas p j = none ∧
        getInner s.lockedModelByCanvas p j = none) sel
      (fun s j _ => forgetOnUnlock_establishes s p j)
      (fun s j j' hh => forgetOnUnlock_preserves s p j j' hh)
      (sel.foldl (fun s j => setLocked s p j false) st) id hid
    refine ⟨?_, hsnaps.1, hsnaps.2.1, hsnaps.2.2⟩
    unfold isLocked
    rw [hlbc]
    exact hlock1

/-- Witness for C2: a two-card selection with one card locked and one
unlocked gets entirely locked and snapshotted. -/
theorem toggle_lock_policy_witness :
    isLocked (toggleLockCommand exStC2 "c" exEnvC2 ["a", "b"]) "c" "b" = true ∧
    (getInner (toggleLockCommand exStC2 "c" exEnvC2 ["a", "b"]).lockedModelByCanvas
      "c" "b").isSome = true := by
  have h := (toggle_lock_policy exStC2 "c" exEnvC2 ["a", "b"] (by decide)
    (by decide)).1 (by decide) "b" (by decide)
  exact ⟨h.1, h.2.2.2⟩

end LockCards
